import Mathlib

/-!
Verification of the tab-communication repository (src/main.js).

The program is a single class App over the Three.js library:
a constructor that nulls four fields and calls init; init runs
setupScene, createObjects and animate in order; animate schedules the
next frame, bumps the cube rotation by 0.01 on x and y, and renders.

We embed the program shallowly: each Three.js object the program touches
becomes a record, JavaScript numbers become exact rationals, nullable
fields become Option, and each method becomes a state transformer.
A method that would dereference null (throwing a TypeError in JS) is
Option-valued and returns none in that case.
-/

namespace TabComm

/-- A 3D vector, as used for object positions and Euler rotation angles. -/
structure Vec3 where
  x : ℚ
  y : ℚ
  z : ℚ
deriving DecidableEq, Repr

/-- THREE.Color constructed from a single numeric value (main.js line 77). -/
structure Color where
  value : ℚ
deriving DecidableEq, Repr

/-- THREE.OrthographicCamera state: the six frustum parameters given to the
constructor, plus the camera position (mutated at main.js line 67). -/
structure OrthographicCamera where
  left : ℚ
  right : ℚ
  top : ℚ
  bottom : ℚ
  near : ℚ
  far : ℚ
  position : Vec3
deriving DecidableEq, Repr

/-- new THREE.OrthographicCamera(left, right, top, bottom, near, far);
the position starts at the origin. -/
def newOrthographicCamera (l r t b n f : ℚ) : OrthographicCamera :=
  { left := l, right := r, top := t, bottom := b, near := n, far := f,
    position := ⟨0, 0, 0⟩ }

/-- The two objects the program ever adds to the scene.  The scene child
list stores references; the mesh data itself lives in the App cube field. -/
inductive SceneChild where
  | camera : SceneChild
  | cube : SceneChild
deriving DecidableEq, Repr

/-- THREE.Scene state: background color (null until assigned) and the list
of children in insertion order. -/
structure Scene where
  background : Option Color
  children : List SceneChild
deriving DecidableEq, Repr

/-- new THREE.Scene(): no background set, no children. -/
def newScene : Scene :=
  { background := none, children := [] }

/-- scene.add(obj): appends the object to the children list. -/
def Scene.add (s : Scene) (c : SceneChild) : Scene :=
  { s with children := s.children ++ [c] }

/-- THREE.BoxGeometry dimensions (main.js line 120). -/
structure BoxGeometry where
  width : ℚ
  height : ℚ
  depth : ℚ
deriving DecidableEq, Repr

/-- THREE.MeshBasicMaterial parameters used at main.js lines 124-127. -/
structure MeshBasicMaterial where
  color : ℕ
  wireframe : Bool
deriving DecidableEq, Repr

/-- THREE.Mesh state: geometry, material, position and rotation. -/
structure Mesh where
  geometry : BoxGeometry
  material : MeshBasicMaterial
  position : Vec3
  rotation : Vec3
deriving DecidableEq, Repr

/-- new THREE.Mesh(geometry, material): position and rotation start at 0. -/
def newMesh (g : BoxGeometry) (m : MeshBasicMaterial) : Mesh :=
  { geometry := g, material := m, position := ⟨0, 0, 0⟩, rotation := ⟨0, 0, 0⟩ }

/-- THREE.WebGLRenderer state: the constructor options, the pixel ratio,
the drawing-buffer size set by setSize, and the id attribute of the canvas
dom element (none until setAttribute runs). -/
structure WebGLRenderer where
  antialias : Bool
  depthBuffer : Bool
  pixelRatio : ℚ
  width : ℚ
  height : ℚ
  domElementId : Option String
deriving DecidableEq, Repr

/-- new THREE.WebGLRenderer({antialias, depthBuffer}): default pixel ratio 1,
default canvas size 300 by 150, no id attribute yet. -/
def newWebGLRenderer (aa db : Bool) : WebGLRenderer :=
  { antialias := aa, depthBuffer := db, pixelRatio := 1,
    width := 300, height := 150, domElementId := none }

/-- The browser environment the program reads: viewport dimensions and
devicePixelRatio (none models the property being undefined). -/
structure Window where
  innerWidth : ℚ
  innerHeight : ℚ
  devicePixelRatio : Option ℚ
deriving DecidableEq, Repr

/-- window.devicePixelRatio || 1 (main.js line 92): JavaScript or-default,
falling back to 1 when the property is undefined or 0 (falsy). -/
def Window.pixelRatioOrOne (w : Window) : ℚ :=
  match w.devicePixelRatio with
  | none => 1
  | some r => if r = 0 then 1 else r

/-- The whole mutable state the program touches: the four App fields
(null until assigned), the children of document.body (by element id),
the number of frame callbacks handed to requestAnimationFrame, and the
console log. -/
structure AppState where
  camera : Option OrthographicCamera
  scene : Option Scene
  renderer : Option WebGLRenderer
  cube : Option Mesh
  bodyChildren : List String
  scheduledFrames : ℕ
  logs : List String
deriving DecidableEq, Repr

/-- The App constructor field initialisation (main.js lines 22-27): all four
handles null, and an initially empty page and log. -/
def initialAppState : AppState :=
  { camera := none, scene := none, renderer := none, cube := none,
    bodyChildren := [], scheduledFrames := 0, logs := [] }

/-- App.setupScene (main.js lines 44-105): build the orthographic camera
over the viewport, set camera.position.z, build the scene, set its
background, add the camera to it, build the renderer, set its pixel ratio
and size, give the canvas the id "scene", append the canvas to the body,
and log.  Every step succeeds, so the result is a plain state. -/
def setupScene (w : Window) (s : AppState) : AppState :=
  let cam0 := newOrthographicCamera 0 w.innerWidth 0 w.innerHeight (-10000) 10000
  let cam := { cam0 with position := { cam0.position with z := (2.5 : ℚ) } }
  let sc0 := newScene
  let sc1 := { sc0 with background := some ⟨(0.0 : ℚ)⟩ }
  let sc := sc1.add SceneChild.camera
  let r0 := newWebGLRenderer true true
  let r1 := { r0 with pixelRatio := w.pixelRatioOrOne }
  let r2 := { r1 with width := w.innerWidth, height := w.innerHeight }
  let r := { r2 with domElementId := some "scene" }
  { s with
      camera := some cam,
      scene := some sc,
      renderer := some r,
      bodyChildren := s.bodyChildren ++ ["scene"],
      logs := s.logs ++ ["Step 1 Complete: Basic Three.js setup done!"] }

/-- App.createObjects (main.js lines 110-143): build the 100-unit box
geometry, the green wireframe material, the mesh, position it at the
viewport center, add it to the scene, and log.  this.scene.add throws if
the scene handle is null, so the result is none in that case. -/
def createObjects (w : Window) (s : AppState) : Option AppState :=
  let geometry : BoxGeometry := ⟨100, 100, 100⟩
  let material : MeshBasicMaterial := { color := 0x00ff00, wireframe := true }
  let cube0 := newMesh geometry material
  let cube := { cube0 with
    position := ⟨w.innerWidth / 2, w.innerHeight / 2, 0⟩ }
  match s.scene with
  | none => none
  | some sc =>
      some { s with
        cube := some cube,
        scene := some (sc.add SceneChild.cube),
        logs := s.logs ++ ["Step 2: Cube created and added to scene!"] }

/-- App.animate (main.js lines 148-163): hand the next-frame callback to
requestAnimationFrame, add 0.01 to cube.rotation.x, add 0.01 to
cube.rotation.y, and render the scene with the camera.  The rotation
updates throw if the cube handle is null, and the render call throws if
the renderer, scene or camera handle is null; the result is none in
those cases (the requestAnimationFrame call precedes the throwing access,
but the crash also discards the pending callback, so the failing result
carries no state).  Rendering itself changes no program state. -/
def animate (s : AppState) : Option AppState :=
  match s.cube with
  | none => none
  | some c =>
      let c1 := { c with rotation := { c.rotation with x := c.rotation.x + (0.01 : ℚ) } }
      let c2 := { c1 with rotation := { c1.rotation with y := c1.rotation.y + (0.01 : ℚ) } }
      match s.renderer, s.scene, s.camera with
      | some _, some _, some _ =>
          some { s with scheduledFrames := s.scheduledFrames + 1, cube := some c2 }
      | _, _, _ => none

/-- App.init (main.js lines 35-39): this.setupScene(); this.createObjects();
this.animate(); in that order and nothing else. -/
def init (w : Window) (s : AppState) : Option AppState :=
  (createObjects w (setupScene w s)).bind animate

/-- new App() (main.js lines 22-29 and 167-169): initialise the fields to
null and run init. -/
def newApp (w : Window) : Option AppState :=
  init w initialAppState

/-- n further executions of the animation callback after a given state. -/
def animateN : ℕ → AppState → Option AppState
  | 0, s => some s
  | n + 1, s => (animate s).bind (animateN n)

/-- A state is reachable when it arises from new App() followed by some
number of further animation frames. -/
def Reachable (w : Window) (s : AppState) : Prop :=
  ∃ n s0, newApp w = some s0 ∧ animateN n s0 = some s

/-- A concrete browser environment used to instantiate theorems. -/
def testWindow : Window :=
  { innerWidth := 800, innerHeight := 600, devicePixelRatio := some 2 }

/-- The cube right after new App() in the testWindow environment: one frame
has already run during init, so both angles are 0.01. -/
def initCube : Mesh :=
  { geometry := ⟨100, 100, 100⟩,
    material := { color := 0x00ff00, wireframe := true },
    position := ⟨400, 300, 0⟩,
    rotation := ⟨1/100, 1/100, 0⟩ }

/-- The program state right after new App() in the testWindow environment. -/
def initState : AppState :=
  { camera := some ⟨0, 800, 0, 600, -10000, 10000, ⟨0, 0, 5/2⟩⟩,
    scene := some ⟨some ⟨0⟩, [SceneChild.camera, SceneChild.cube]⟩,
    renderer := some ⟨true, true, 2, 800, 600, some "scene"⟩,
    cube := some initCube,
    bodyChildren := ["scene"],
    scheduledFrames := 1,
    logs := ["Step 1 Complete: Basic Three.js setup done!",
             "Step 2: Cube created and added to scene!"] }

/-- The program state right after one further animation frame on initState. -/
def state1 : AppState :=
  { initState with
      cube := some { initCube with rotation := ⟨2/100, 2/100, 0⟩ },
      scheduledFrames := 2 }

/-- The program state in the testWindow environment after setupScene and
createObjects but before the first animation frame: rotation still 0. -/
def preAnimState : AppState :=
  { initState with
      cube := some { initCube with rotation := ⟨0, 0, 0⟩ },
      scheduledFrames := 0 }

theorem newApp_testWindow : newApp testWindow = some initState := by
  norm_num [newApp, init, setupScene, createObjects, animate, initialAppState,
    newOrthographicCamera, newScene, Scene.add, newMesh, newWebGLRenderer,
    Window.pixelRatioOrOne, testWindow, initState, initCube]

/-- The state produced by setupScene followed by createObjects in an
arbitrary environment w, before any animation frame: derived from the
definitions, used to state several theorems. -/
def postCreateState (w : Window) : AppState :=
  { camera := some ⟨0, w.innerWidth, 0, w.innerHeight, -10000, 10000, ⟨0, 0, 5/2⟩⟩,
    scene := some ⟨some ⟨0⟩, [SceneChild.camera, SceneChild.cube]⟩,
    renderer := some ⟨true, true, w.pixelRatioOrOne, w.innerWidth, w.innerHeight, some "scene"⟩,
    cube := some ⟨⟨100, 100, 100⟩, ⟨0x00ff00, true⟩,
      ⟨w.innerWidth / 2, w.innerHeight / 2, 0⟩, ⟨0, 0, 0⟩⟩,
    bodyChildren := ["scene"],
    scheduledFrames := 0,
    logs := ["Step 1 Complete: Basic Three.js setup done!",
             "Step 2: Cube created and added to scene!"] }

/-- The state right after new App() in an arbitrary environment w: init
itself runs one animation frame, so both angles are already at 0.01. -/
def postInitState (w : Window) : AppState :=
  { postCreateState w with
      cube := some ⟨⟨100, 100, 100⟩, ⟨0x00ff00, true⟩,
        ⟨w.innerWidth / 2, w.innerHeight / 2, 0⟩, ⟨1/100, 1/100, 0⟩⟩,
      scheduledFrames := 1 }

theorem createObjects_setupScene_eq (w : Window) :
    createObjects w (setupScene w initialAppState) = some (postCreateState w) := by
  norm_num [createObjects, setupScene, initialAppState, newOrthographicCamera,
    newScene, Scene.add, newMesh, newWebGLRenderer, postCreateState]

theorem newApp_eq (w : Window) : newApp w = some (postInitState w) := by
  norm_num [newApp, init, setupScene, createObjects, animate, initialAppState,
    newOrthographicCamera, newScene, Scene.add, newMesh, newWebGLRenderer,
    postCreateState, postInitState]

/-- Inversion of a successful animation frame: the cube handle was set,
the new cube differs only in rotation.x and rotation.y (each up by 0.01),
all other state is untouched except that one more frame got scheduled,
and the render handles were all set. -/
theorem animate_inv (s s' : AppState) (h : animate s = some s') :
    ∃ c, s.cube = some c ∧
      s'.cube = some { c with rotation :=
        ⟨c.rotation.x + (0.01 : ℚ), c.rotation.y + (0.01 : ℚ), c.rotation.z⟩ } ∧
      s'.camera = s.camera ∧ s'.scene = s.scene ∧ s'.renderer = s.renderer ∧
      s'.bodyChildren = s.bodyChildren ∧ s'.logs = s.logs ∧
      s'.scheduledFrames = s.scheduledFrames + 1 ∧
      s.renderer.isSome ∧ s.scene.isSome ∧ s.camera.isSome := by
  unfold animate at h
  split at h
  · exact absurd h (by simp)
  next c hc =>
    split at h
    next r sc cam hr hs hcam =>
      refine ⟨c, hc, ?_⟩
      injection h with h'
      subst h'
      simp [hr, hs, hcam]
    next =>
      exact absurd h (by simp)

/-- Running n further animation frames changes nothing but the cube
rotation (x and y each gain n times 0.01) and the frame counter. -/
theorem animateN_preserves (n : ℕ) :
    ∀ s s', animateN n s = some s' →
      s'.camera = s.camera ∧ s'.scene = s.scene ∧ s'.renderer = s.renderer ∧
      s'.bodyChildren = s.bodyChildren ∧ s'.logs = s.logs ∧
      s'.scheduledFrames = s.scheduledFrames + n ∧
      ∀ c, s.cube = some c → ∃ c', s'.cube = some c' ∧
        c'.position = c.position ∧ c'.geometry = c.geometry ∧
        c'.material = c.material ∧
        c'.rotation.x = c.rotation.x + n * (0.01 : ℚ) ∧
        c'.rotation.y = c.rotation.y + n * (0.01 : ℚ) ∧
        c'.rotation.z = c.rotation.z := by
  induction n with
  | zero =>
    intro s s' h
    simp only [animateN] at h
    injection h with h
    subst h
    refine ⟨rfl, rfl, rfl, rfl, rfl, rfl, ?_⟩
    intro c hc
    exact ⟨c, hc, rfl, rfl, rfl, by simp, by simp, rfl⟩
  | succ n ih =>
    intro s s' h
    simp only [animateN] at h
    cases ha : animate s with
    | none => rw [ha] at h; exact absurd h (by simp)
    | some t =>
      rw [ha, Option.some_bind] at h
      obtain ⟨c, hc, htc, htcam, htsc, htr, htb, htl, htf, -, -, -⟩ :=
        animate_inv s t ha
      obtain ⟨hcam, hsc, hr, hb, hl, hf, hcube⟩ := ih t s' h
      refine ⟨hcam.trans htcam, hsc.trans htsc, hr.trans htr,
        hb.trans htb, hl.trans htl, by rw [hf, htf]; ring, ?_⟩
      intro c0 hc0
      rw [hc0] at hc
      injection hc with hc
      subst hc
      obtain ⟨c', hc', hp, hg, hm, hx, hy, hz⟩ := hcube _ htc
      refine ⟨c', hc', hp, hg, hm, ?_, ?_, hz⟩
      · rw [hx]
        push_cast
        ring
      · rw [hy]
        push_cast
        ring

theorem animate_initState : animate initState = some state1 := by
  norm_num [animate, initState, initCube, state1]

/-- C1: each execution of the animation callback increments exactly the two
rotation angles rotation.x and rotation.y of the single cube mesh, each by
the same fixed constant 0.01 (rotation.z is untouched), and then renders
the scene with the camera; the constant is a literal independent of the
state, hence identical on every frame.  The render call is modelled by its
precondition (renderer, scene and camera set); it changes no program
state. -/
theorem animate_increments_two_rotations_by_fixed_constant
    (s : AppState) (c : Mesh) (hc : s.cube = some c)
    (hr : s.renderer.isSome) (hs : s.scene.isSome) (hcam : s.camera.isSome) :
    ∃ s' c', animate s = some s' ∧ s'.cube = some c' ∧
      c'.rotation.x = c.rotation.x + (0.01 : ℚ) ∧
      c'.rotation.y = c.rotation.y + (0.01 : ℚ) ∧
      c'.rotation.z = c.rotation.z ∧
      s'.renderer = s.renderer ∧ s'.scene = s.scene ∧ s'.camera = s.camera := by
  obtain ⟨r, hr⟩ := Option.isSome_iff_exists.mp hr
  obtain ⟨sc, hs⟩ := Option.isSome_iff_exists.mp hs
  obtain ⟨cam, hcam⟩ := Option.isSome_iff_exists.mp hcam
  have he : animate s = some
      { s with
        scheduledFrames := s.scheduledFrames + 1,
        cube := some { c with rotation := ⟨c.rotation.x + (0.01 : ℚ), c.rotation.y + (0.01 : ℚ), c.rotation.z⟩ } } := by
    unfold animate
    rw [hc, hr, hs, hcam]
  exact ⟨_, _, he, rfl, rfl, rfl, rfl, rfl, rfl, rfl⟩

theorem animate_increments_two_rotations_by_fixed_constant_witness :
    ∃ s' c', animate initState = some s' ∧ s'.cube = some c' ∧
      c'.rotation.x = initCube.rotation.x + (0.01 : ℚ) ∧
      c'.rotation.y = initCube.rotation.y + (0.01 : ℚ) ∧
      c'.rotation.z = initCube.rotation.z ∧
      s'.renderer = initState.renderer ∧ s'.scene = initState.scene ∧
      s'.camera = initState.camera :=
  animate_increments_two_rotations_by_fixed_constant initState initCube
    rfl rfl rfl rfl

/-- C2: across any successful animation frame started from a reachable
state, both of the cube rotation angles strictly increase. -/
theorem animate_rotation_strictly_increases
    (w : Window) (s s' : AppState) (hre : Reachable w s)
    (h : animate s = some s') :
    ∃ c c', s.cube = some c ∧ s'.cube = some c' ∧
      c.rotation.x < c'.rotation.x ∧ c.rotation.y < c'.rotation.y := by
  obtain ⟨c, hc, hc', -⟩ := animate_inv s s' h
  refine ⟨c, _, hc, hc', ?_, ?_⟩
  · show c.rotation.x < c.rotation.x + (0.01 : ℚ)
    linarith [show (0 : ℚ) < 0.01 by norm_num]
  · show c.rotation.y < c.rotation.y + (0.01 : ℚ)
    linarith [show (0 : ℚ) < 0.01 by norm_num]

theorem animate_rotation_strictly_increases_witness :
    ∃ c c', initState.cube = some c ∧ state1.cube = some c' ∧
      c.rotation.x < c'.rotation.x ∧ c.rotation.y < c'.rotation.y :=
  animate_rotation_strictly_increases testWindow initState state1
    ⟨0, initState, newApp_testWindow, rfl⟩ animate_initState

/-- C3: a successful animation frame changes only the cube rotation.x and
rotation.y; the camera handle (hence its frustum bounds and position), the
renderer handle (hence its size), the scene handle (hence its membership),
the page, the log, and the cube position, geometry, material and
rotation.z are all unchanged. -/
theorem animate_touches_only_cube_rotation (s s' : AppState)
    (h : animate s = some s') :
    s'.camera = s.camera ∧ s'.renderer = s.renderer ∧ s'.scene = s.scene ∧
    s'.bodyChildren = s.bodyChildren ∧ s'.logs = s.logs ∧
    ∃ c c', s.cube = some c ∧ s'.cube = some c' ∧
      c'.position = c.position ∧ c'.geometry = c.geometry ∧
      c'.material = c.material ∧ c'.rotation.z = c.rotation.z := by
  obtain ⟨c, hc, hc', hcam, hsc, hr, hb, hl, -, -, -, -⟩ := animate_inv s s' h
  exact ⟨hcam, hr, hsc, hb, hl, c, _, hc, hc', rfl, rfl, rfl, rfl⟩

theorem animate_touches_only_cube_rotation_witness :
    state1.camera = initState.camera ∧ state1.renderer = initState.renderer ∧
    state1.scene = initState.scene ∧
    state1.bodyChildren = initState.bodyChildren ∧
    state1.logs = initState.logs ∧
    ∃ c c', initState.cube = some c ∧ state1.cube = some c' ∧
      c'.position = c.position ∧ c'.geometry = c.geometry ∧
      c'.material = c.material ∧ c'.rotation.z = c.rotation.z :=
  animate_touches_only_cube_rotation initState state1 animate_initState

/-- C4: init performs exactly the three calls setupScene, createObjects,
animate in that order (definitional equality of the whole of init), and
after the first two calls — so before the first animation frame — the cube
handle is set and the cube is a member of the scene. -/
theorem init_is_three_sequential_calls (w : Window) :
    init w initialAppState =
      (createObjects w (setupScene w initialAppState)).bind animate ∧
    ∃ s, createObjects w (setupScene w initialAppState) = some s ∧
      s.cube.isSome ∧ ∃ sc, s.scene = some sc ∧ SceneChild.cube ∈ sc.children := by
  refine ⟨rfl, postCreateState w, createObjects_setupScene_eq w, rfl, _, rfl, ?_⟩
  simp [postCreateState]

/-- C5: setupScene sets the renderer drawing surface to exactly the
viewport dimensions and appends the resulting canvas element to the
document body; and the only operation that ever hands a callback to
requestAnimationFrame is animate, which schedules exactly one per frame
(setupScene and createObjects schedule none). -/
theorem setup_matches_viewport_and_schedules_frames (w : Window) (s : AppState) :
    (∃ r, (setupScene w s).renderer = some r ∧
      r.width = w.innerWidth ∧ r.height = w.innerHeight ∧
      r.domElementId = some "scene") ∧
    (setupScene w s).bodyChildren = s.bodyChildren ++ ["scene"] ∧
    (setupScene w s).scheduledFrames = s.scheduledFrames ∧
    (∀ t t', createObjects w t = some t' →
      t'.scheduledFrames = t.scheduledFrames) ∧
    (∀ t t', animate t = some t' →
      t'.scheduledFrames = t.scheduledFrames + 1) := by
  refine ⟨⟨_, rfl, rfl, rfl, rfl⟩, rfl, rfl, ?_, ?_⟩
  · intro t t' h
    unfold createObjects at h
    split at h
    · exact absurd h (by simp)
    next sc hsc =>
      injection h with h
      subst h
      rfl
  · intro t t' h
    obtain ⟨c, -, -, -, -, -, -, -, hf, -, -, -⟩ := animate_inv t t' h
    exact hf

theorem setup_matches_viewport_and_schedules_frames_witness :
    (∃ r, (setupScene testWindow initialAppState).renderer = some r ∧
      r.width = (800 : ℚ) ∧ r.height = (600 : ℚ) ∧
      r.domElementId = some "scene") ∧
    (setupScene testWindow initialAppState).bodyChildren = ["scene"] ∧
    state1.scheduledFrames = initState.scheduledFrames + 1 := by
  obtain ⟨⟨r, h1, h2, h3, h4⟩, h5, -, -, hanim⟩ :=
    setup_matches_viewport_and_schedules_frames testWindow initialAppState
  exact ⟨⟨r, h1, h2, h3, h4⟩, h5, hanim initState state1 animate_initState⟩

/-- C6: there is no validation and no recovery path.  When every library
call succeeds — which in this model is exactly when the handles a method
dereferences are set, as they are along the straight-line init path from
the initial state — every operation completes; and when a library call
fails (a null handle), the operation yields no program-defined fallback
state at all: the failure propagates as none. -/
theorem no_validation_no_recovery (w : Window) :
    (∃ s, newApp w = some s) ∧
    (∀ s, s.cube = none → animate s = none) ∧
    (∀ s, s.scene = none → createObjects w s = none) ∧
    (∀ s c, s.cube = some c → s.renderer = none → animate s = none) := by
  refine ⟨⟨_, newApp_eq w⟩, ?_, ?_, ?_⟩
  · intro s hc
    unfold animate
    rw [hc]
  · intro s hs
    unfold createObjects
    rw [hs]
  · intro s c hc hr
    unfold animate
    rw [hc, hr]

theorem no_validation_no_recovery_witness :
    (∃ s, newApp testWindow = some s) ∧ animate initialAppState = none := by
  obtain ⟨h1, h2, -, -⟩ := no_validation_no_recovery testWindow
  exact ⟨h1, h2 initialAppState rfl⟩

/-- C7: in every reachable state the scene children are exactly the camera
followed by the one cube: createObjects runs once, adds the single mesh it
created, and no later operation adds or removes scene members. -/
theorem scene_children_exactly_camera_and_cube (w : Window) (s : AppState)
    (h : Reachable w s) :
    ∃ sc, s.scene = some sc ∧
      sc.children = [SceneChild.camera, SceneChild.cube] := by
  obtain ⟨n, s0, h0, hn⟩ := h
  have he := newApp_eq w
  rw [h0] at he
  injection he with he
  subst he
  obtain ⟨-, hsc, -, -, -, -, -⟩ := animateN_preserves n _ s hn
  rw [hsc]
  exact ⟨_, rfl, rfl⟩

theorem scene_children_exactly_camera_and_cube_witness :
    ∃ sc, initState.scene = some sc ∧
      sc.children = [SceneChild.camera, SceneChild.cube] :=
  scene_children_exactly_camera_and_cube testWindow initState
    ⟨0, initState, newApp_testWindow, rfl⟩

/-- C8: in every reachable state the two animated angles agree: both start
at 0 when the mesh is created, init runs one frame, and every frame adds
the same 0.01 to each. -/
theorem rotation_x_eq_rotation_y_reachable (w : Window) (s : AppState)
    (h : Reachable w s) :
    ∃ c, s.cube = some c ∧ c.rotation.x = c.rotation.y := by
  obtain ⟨n, s0, h0, hn⟩ := h
  have he := newApp_eq w
  rw [h0] at he
  injection he with he
  subst he
  obtain ⟨-, -, -, -, -, -, hcube⟩ := animateN_preserves n _ s hn
  obtain ⟨c', hc', -, -, -, hx, hy, -⟩ := hcube _ rfl
  exact ⟨c', hc', by rw [hx, hy]⟩

theorem rotation_x_eq_rotation_y_reachable_witness :
    ∃ c, initState.cube = some c ∧ c.rotation.x = c.rotation.y :=
  rotation_x_eq_rotation_y_reachable testWindow initState
    ⟨0, initState, newApp_testWindow, rfl⟩

/-- C9: in exact rational arithmetic, starting from the state createObjects
leaves (angles 0), after n executions of the animation callback each angle
is exactly n times 0.01 and rotation.z is still 0 — no reset, no wrap —
and the angles exceed any bound for large enough n. -/
theorem rotation_exactly_linear_in_frames (w : Window) (s : AppState)
    (hc : createObjects w (setupScene w initialAppState) = some s) :
    (∀ n s', animateN n s = some s' → ∃ c, s'.cube = some c ∧
      c.rotation.x = n * (0.01 : ℚ) ∧ c.rotation.y = n * (0.01 : ℚ) ∧
      c.rotation.z = 0) ∧
    (∀ B : ℚ, ∃ n : ℕ, ∀ s', animateN n s = some s' → ∃ c, s'.cube = some c ∧
      B < c.rotation.x ∧ B < c.rotation.y) := by
  have he := createObjects_setupScene_eq w
  rw [hc] at he
  injection he with he
  subst he
  constructor
  · intro n s' h
    obtain ⟨-, -, -, -, -, -, hcube⟩ := animateN_preserves n _ s' h
    obtain ⟨c', hc', -, -, -, hx, hy, hz⟩ := hcube _ rfl
    refine ⟨c', hc', ?_, ?_, hz⟩
    · rw [hx]
      show (0 : ℚ) + (n : ℚ) * (0.01 : ℚ) = (n : ℚ) * (0.01 : ℚ)
      ring
    · rw [hy]
      show (0 : ℚ) + (n : ℚ) * (0.01 : ℚ) = (n : ℚ) * (0.01 : ℚ)
      ring
  · intro B
    obtain ⟨n, hn⟩ := exists_nat_gt (100 * B)
    refine ⟨n, ?_⟩
    intro s' h
    obtain ⟨-, -, -, -, -, -, hcube⟩ := animateN_preserves n _ s' h
    obtain ⟨c', hc', -, -, -, hx, hy, -⟩ := hcube _ rfl
    have h001 : (0.01 : ℚ) = 1 / 100 := by norm_num
    refine ⟨c', hc', ?_, ?_⟩
    · rw [hx]
      show B < (0 : ℚ) + (n : ℚ) * (0.01 : ℚ)
      rw [h001]
      linarith
    · rw [hy]
      show B < (0 : ℚ) + (n : ℚ) * (0.01 : ℚ)
      rw [h001]
      linarith

theorem preAnimState_eq :
    createObjects testWindow (setupScene testWindow initialAppState) =
      some preAnimState := by
  norm_num [createObjects, setupScene, initialAppState, newOrthographicCamera,
    newScene, Scene.add, newMesh, newWebGLRenderer, Window.pixelRatioOrOne,
    testWindow, preAnimState, initState, initCube]

theorem animateN_two_preAnimState :
    animateN 2 preAnimState = some state1 := by
  norm_num [animateN, animate, preAnimState, initState, initCube, state1]

theorem rotation_exactly_linear_in_frames_witness :
    ∃ c, state1.cube = some c ∧
      c.rotation.x = ((2 : ℕ) : ℚ) * (0.01 : ℚ) ∧
      c.rotation.y = ((2 : ℕ) : ℚ) * (0.01 : ℚ) ∧ c.rotation.z = 0 :=
  (rotation_exactly_linear_in_frames testWindow preAnimState preAnimState_eq).1
    2 state1 animateN_two_preAnimState

/-- C10: in every reachable state the cube position is exactly the viewport
center (innerWidth / 2, innerHeight / 2, 0), the orthographic frustum is
exactly left 0, right innerWidth, top 0, bottom innerHeight — one world
unit per pixel — and the cube position is the midpoint of the frustum in x
and in y. -/
theorem cube_centered_one_unit_per_pixel (w : Window) (s : AppState)
    (h : Reachable w s) :
    ∃ c cam, s.cube = some c ∧ s.camera = some cam ∧
      c.position = ⟨w.innerWidth / 2, w.innerHeight / 2, 0⟩ ∧
      cam.left = 0 ∧ cam.right = w.innerWidth ∧
      cam.top = 0 ∧ cam.bottom = w.innerHeight ∧
      c.position.x = (cam.left + cam.right) / 2 ∧
      c.position.y = (cam.top + cam.bottom) / 2 := by
  obtain ⟨n, s0, h0, hn⟩ := h
  have he := newApp_eq w
  rw [h0] at he
  injection he with he
  subst he
  obtain ⟨hcam, -, -, -, -, -, hcube⟩ := animateN_preserves n _ s hn
  obtain ⟨c', hc', hp, -, -, -, -, -⟩ := hcube _ rfl
  refine ⟨c', _, hc', hcam, hp, rfl, rfl, rfl, rfl, ?_, ?_⟩
  · rw [hp]
    show w.innerWidth / 2 = ((0 : ℚ) + w.innerWidth) / 2
    rw [zero_add]
  · rw [hp]
    show w.innerHeight / 2 = ((0 : ℚ) + w.innerHeight) / 2
    rw [zero_add]

theorem cube_centered_one_unit_per_pixel_witness :
    ∃ c cam, initState.cube = some c ∧ initState.camera = some cam ∧
      c.position = ⟨testWindow.innerWidth / 2, testWindow.innerHeight / 2, 0⟩ ∧
      cam.left = 0 ∧ cam.right = testWindow.innerWidth ∧
      cam.top = 0 ∧ cam.bottom = testWindow.innerHeight ∧
      c.position.x = (cam.left + cam.right) / 2 ∧
      c.position.y = (cam.top + cam.bottom) / 2 :=
  cube_centered_one_unit_per_pixel testWindow initState
    ⟨0, initState, newApp_testWindow, rfl⟩

end TabComm
